import Mathlib

/-!
# electron/pixeldrain_stub.go

A shallow embedding of the Go file `electron/pixeldrain_stub.go`.  The file is
`package main`; apart from comments (a build tag, a header and a TODO block
sketching a future upload service) it contains one declaration,

    func main() {}

A Go function body is embedded as a block of statements, each statement a
transformer of the process state that either returns the next state or panics.
The state records what the process has done so far (servers started, handlers
registered, upstream calls, responses written, output printed) next to the
package-level variables and the requests its environment sends it.
-/

namespace PixeldrainStub

/-! ## The world a Go process of this kind lives in -/

/-- An HTTP request as a client sends it: method, path and the bytes of the
uploaded file. -/
structure Request where
  method : String
  path : String
  file : List Nat
deriving DecidableEq

/-- A JSON response body: the `ok` flag and the optional `url` and `error`
fields (`none` when the field is not in the body). -/
structure Response where
  ok : Bool
  url : Option String
  error : Option String
deriving DecidableEq

/-- What the remote provider would answer if the file of a request were
uploaded to it. -/
inductive Upstream where
  | accepted (url : String)
  | rejected (msg : String)
deriving DecidableEq

/-- A request on its way to the process, with the answer the provider holds
ready for its file. -/
structure Delivery where
  request : Request
  upstream : Upstream
deriving DecidableEq

/-- The effects a process can have on the outside. -/
inductive Effect where
  | listen (addr : String)
  | register (method path : String)
  | upload (file : List Nat)
  | respond (req : Request) (body : Response)
  | output (text : String)
deriving DecidableEq

/-- The package-level variables of `package main`.  Lines 7 to 27 of the file
declare none, so the record has no field. -/
structure Globals where
deriving DecidableEq

/-- Process state: the package variables, the effects performed so far (oldest
first) and the requests the environment delivers. -/
structure World where
  globals : Globals
  log : List Effect
  inbox : List Delivery
deriving DecidableEq

/-! ## Statements and the program -/

/-- A Go statement: from a state to the next one, or a panic with its message. -/
abbrev Stmt := World → Except String World

/-- A Go block `{ s1; ...; sn }`: the statements run in order, a panic ends the
block. -/
def block : List Stmt → Stmt
  | [] => fun w => Except.ok w
  | s :: rest => fun w =>
    match s w with
    | Except.ok w1 => block rest w1
    | Except.error msg => Except.error msg

/-- Line 27, `func main() {}`: the block with no statement. -/
def main : Stmt := block []

/-! ## What a run of the program does -/

/-- The effects a run of `main` from `w` adds to the log (none are recorded for
a run that panics). -/
def performed (w : World) : List Effect :=
  match main w with
  | Except.ok w1 => w1.log.drop w.log.length
  | Except.error _ => []

/-- The servers started among some effects. -/
def servers : List Effect → List String
  | [] => []
  | Effect.listen addr :: es => addr :: servers es
  | _ :: es => servers es

/-- The handlers registered among some effects, as (method, path). -/
def handlers : List Effect → List (String × String)
  | [] => []
  | Effect.register m p :: es => (m, p) :: handlers es
  | _ :: es => handlers es

/-- The upstream calls among some effects. -/
def uploads : List Effect → List (List Nat)
  | [] => []
  | Effect.upload f :: es => f :: uploads es
  | _ :: es => uploads es

/-- The responses written among some effects, each with its request. -/
def replies : List Effect → List (Request × Response)
  | [] => []
  | Effect.respond q b :: es => (q, b) :: replies es
  | _ :: es => replies es

/-- The output printed among some effects. -/
def outputs : List Effect → List String
  | [] => []
  | Effect.output t :: es => t :: outputs es
  | _ :: es => outputs es

/-- The body the run of the program from `w` returns for request `req`:
`none` when the run writes no response to it. -/
def reply (w : World) (req : Request) : Option Response :=
  (replies (performed w)).lookup req

/-- The endpoint named in the TODO note of line 12, `POST /pixeldrain/upload`. -/
def isUpload (req : Request) : Bool :=
  req.method == "POST" && req.path == "/pixeldrain/upload"

/-- The run of the program from `w` handles `req` when it starts a server and
registers a handler for the method and path of `req`. -/
def handles (w : World) (req : Request) : Bool :=
  !(servers (performed w)).isEmpty &&
    (handlers (performed w)).contains (req.method, req.path)

/-- The operation performed twice in a row. -/
def twice : Stmt := block [main, main]

/-- The body a second run returns for `req`, started from the state the first
run from `w` left. -/
def secondReply (w : World) (req : Request) : Option Response :=
  match main w with
  | Except.ok w1 => reply w1 req
  | Except.error _ => none

/-! ## Concrete inputs -/

/-- An upload request for a three-byte file. -/
def uploadRequest : Request :=
  { method := "POST", path := "/pixeldrain/upload", file := [1, 2, 3] }

/-- The upload request, which the provider would accept. -/
def acceptedDelivery : Delivery :=
  { request := uploadRequest, upstream := Upstream.accepted "https://pixeldrain.com/u/abc" }

/-- A fresh process that is sent the accepted upload. -/
def worldAccepted : World :=
  { globals := {}, log := [], inbox := [acceptedDelivery] }

/-! ## Theorems -/

/-! ### What the empty `main` does -/

/-- An empty block returns the state it was given. -/
theorem block_nil (w : World) : block [] w = Except.ok w := rfl

/-- The run of `main` returns the state it started from. -/
theorem main_ok (w : World) : main w = Except.ok w := block_nil w

/-- The run of `main` adds nothing to the log. -/
theorem performed_nil (w : World) : performed w = [] := by
  simp [performed, main_ok]

/-- The run of `main` writes no response to any request. -/
theorem reply_none (w : World) (req : Request) : reply w req = none := by
  simp [reply, performed_nil, replies]

/-- The run of `main` starts no server and registers no handler, so `handles`
is false throughout. -/
theorem handles_false (w : World) (req : Request) : handles w req = false := by
  simp [handles, performed_nil, servers]

/-! ### The claims -/

/-- C1: `main` is empty. From every initial state the run of `main` terminates
by returning, with the state unchanged, and performs no effect: it starts no
server, registers no handler, makes no upstream call, writes no response and
prints nothing. -/
theorem main_returns_state_unchanged (w : World) :
    main w = Except.ok w ∧ performed w = [] ∧
      servers (performed w) = [] ∧ handlers (performed w) = [] ∧
      uploads (performed w) = [] ∧ replies (performed w) = [] ∧
      outputs (performed w) = [] := by
  have hperf : performed w = [] := performed_nil w
  simp [main_ok, hperf, servers, handlers, uploads, replies, outputs]

/-- C5 as stated fails: the request `POST /pixeldrain/upload` has the method
and the path of the endpoint, and the run does not handle it. -/
theorem upload_endpoint_not_handled :
    uploadRequest.method = "POST" ∧ uploadRequest.path = "/pixeldrain/upload" ∧
      isUpload uploadRequest = true ∧ handles worldAccepted uploadRequest = false := by
  decide

/-- C5 amended: the program handles no request. A request with another method
or another path is not handled, and a `POST /pixeldrain/upload` request is not
handled either: the run starts no server and registers no handler. -/
theorem handles_no_request (w : World) (req : Request) :
    handles w req = false ∧ servers (performed w) = [] ∧ handlers (performed w) = [] := by
  refine ⟨handles_false w req, ?_, ?_⟩ <;> simp [performed_nil, servers, handlers]

/-- C6: the program keeps no local state. The package has no variable (any
two values of its globals are equal); running `main` twice leaves the state
that running it once leaves, which is the state it started from; and the body
a second run returns for a request is the body the first run returns. -/
theorem no_local_state (w : World) (req : Request) :
    (∀ g : Globals, g = w.globals) ∧ twice w = main w ∧ main w = Except.ok w ∧
      secondReply w req = reply w req := by
  refine ⟨fun g => rfl, rfl, rfl, ?_⟩
  simp [secondReply, main_ok, reply_none]

end PixeldrainStub
